import Mathlib

/-!
Shallow embedding of `tensorboard_lite_plugin/lite_plugin.py` (the `LitePlugin`
class): JSON-like option values with Python truthiness, `os.path.join`, the
shared `_generate_script` step, the `/script` and `/convert` handlers (with an
explicit effect trace for directory creation and backend execution), the
`is_active` predicate, and the route table from `get_plugin_apps`.

The `lite_backend` module is not part of the supplied source; its functions
(`script_from_saved_model`, `execute`, `get_suggestion`, `to_unicode`,
`is_supported`) are abstracted as the fields of a `LiteBackend` record, exactly
as the plugin calls them.  Process output (`stdout`/`stderr`) is kept as raw
bytes (`List Nat`); `to_unicode` is the backend's lossy decode.
-/

namespace LitePlugin

/-- A JSON value as produced by `json.loads` of the `data` form field. -/
inductive JValue where
  | null : JValue
  | bool : Bool → JValue
  | num : Int → JValue
  | str : String → JValue
  | arr : List JValue → JValue
  | obj : List (String × JValue) → JValue

/-- Python truthiness of a JSON value (`if v:` / `v or default`). -/
def JValue.truthy : JValue → Bool
  | JValue.null => false
  | JValue.bool b => b
  | JValue.num n => n != 0
  | JValue.str s => s != ""
  | JValue.arr xs => !xs.isEmpty
  | JValue.obj fs => !fs.isEmpty

/-- Python `v or d`: `v` when truthy, else `d`. -/
def pyOr (v d : JValue) : JValue :=
  if v.truthy then v else d

/-- Errors a handler can raise while reading the request. -/
inductive PyError where
  | jsonError : PyError
  | keyError : String → PyError
  | typeError : PyError
deriving DecidableEq, Repr

/-- Python `options[k]`: `KeyError` when the key is absent, `TypeError`
when `options` is not a dict. -/
def subscript (v : JValue) (k : String) : Except PyError JValue :=
  match v with
  | JValue.obj fields =>
    match fields.lookup k with
    | some x => Except.ok x
    | none => Except.error (PyError.keyError k)
  | _ => Except.error PyError.typeError

/-- Model of `os.path.join` on two POSIX components, as CPython computes it: `b` when
`b` is absolute, `a ++ b` when `a` is empty or ends with the separator,
otherwise `a ++ "/" ++ b`. -/
def osPathJoin (a b : String) : String :=
  if b.data.head? = some '/' then b
  else if a = "" ∨ a.data.getLast? = some '/' then a ++ b
  else a ++ "/" ++ b

/-- Property `LitePlugin._tflite_output_dir`. -/
def tflite_output_dir (logdir : String) : String :=
  osPathJoin logdir "tflite_output"

/-- Property `LitePlugin._tflite_output_file`. -/
def tflite_output_file (logdir : String) : String :=
  osPathJoin (tflite_output_dir logdir) "model.tflite"

/-- The `lite_backend` collaborators the plugin calls, abstracted. -/
structure LiteBackend where
  is_supported : Bool
  script_from_saved_model : String → String → JValue → JValue → String
  execute : String → Bool × List Nat × List Nat
  get_suggestion : List Nat → String × String
  to_unicode : List Nat → String

/-- A request to `/script` or `/convert`: the parsed JSON of the form field
`data`, or `none` when the field is missing or its JSON is malformed. -/
def Request : Type := Option JValue

/-- Line `saved_model_dir = os.path.join(self._logdir, options["saved_model"] or "")`.
A truthy non-string value makes `os.path.join` raise `TypeError`. -/
def resolveSavedModelDir (logdir : String) (options : JValue) : Except PyError String := do
  let sm ← subscript options "saved_model"
  match pyOr sm (JValue.str "") with
  | JValue.str s => Except.ok (osPathJoin logdir s)
  | _ => Except.error PyError.typeError

/-- Method `LitePlugin._generate_script`: read the options, resolve the saved-model
directory, default the array fields via `or []`, and call the backend. -/
def generate_script (b : LiteBackend) (logdir : String) (req : Request)
    (tflite_file : String) : Except PyError String := do
  let options ← match req with
    | none => Except.error PyError.jsonError
    | some o => Except.ok o
  let saved_model_dir ← resolveSavedModelDir logdir options
  let ia ← subscript options "input_arrays"
  let oa ← subscript options "output_arrays"
  Except.ok (b.script_from_saved_model saved_model_dir tflite_file
    (pyOr ia (JValue.arr [])) (pyOr oa (JValue.arr [])))

/-- One block of a result tab (`{"type": ..., "title"?: ..., "body": ...}`). -/
structure ContentBlock where
  type : String
  title : Option String
  body : String
deriving DecidableEq, Repr

/-- One tab of the convert report. -/
structure Tab where
  name : String
  content : List ContentBlock
deriving DecidableEq, Repr

/-- One addon entry of the convert report. -/
structure Addon where
  type : String
  title : String
  body : String
deriving DecidableEq, Repr

/-- The `result` dict built by `LitePlugin.convert`; `addons = none` when the
key is never set. -/
structure ReportPayload where
  result : String
  tabs : List Tab
  addons : Option (List Addon)
deriving DecidableEq, Repr

/-- Side effects a handler performs on the world, in order:
`lite_backend.safe_makedirs` and `lite_backend.execute`. -/
inductive Effect where
  | mkdirs : String → Effect
  | execute : String → Effect
deriving DecidableEq, Repr

/-- The text of the success message built by `convert` (typo as in the source). -/
def successMessage (decodedStdout : String) : String :=
  "Succuss: The model has been converted to tflite file.\n" ++ decodedStdout

/-- Handler `LitePlugin.convert`: generate the script, create the output directory,
execute, and shape the report.  Returns the effect trace alongside the
payload (or the raised error, with an empty trace). -/
def convert (b : LiteBackend) (logdir : String) (req : Request) :
    List Effect × Except PyError ReportPayload :=
  let tflite_file := tflite_output_file logdir
  match generate_script b logdir req tflite_file with
  | Except.error e => ([], Except.error e)
  | Except.ok scr =>
    let effects := [Effect.mkdirs (tflite_output_dir logdir), Effect.execute scr]
    match b.execute scr with
    | (true, stdout, _) =>
      (effects, Except.ok
        { result := "success"
          tabs := [
            { name := "summary"
              content := [
                { type := "text", title := none,
                  body := successMessage (b.to_unicode stdout) },
                { type := "code", title := none, body := tflite_file } ] },
            { name := "command"
              content := [ { type := "code", title := none, body := scr } ] } ]
          addons := none })
    | (false, _, stderr) =>
      let sugg := b.get_suggestion stderr
      let errContent :=
        if sugg.1 != "" then
          [ { type := "code", title := some "error", body := b.to_unicode stderr },
            ({ type := "text", title := some "Suggestion", body := sugg.1 } : ContentBlock) ]
        else
          [ { type := "code", title := some "error", body := b.to_unicode stderr } ]
      (effects, Except.ok
        { result := "failed"
          tabs := [
            { name := "error", content := errContent },
            { name := "command"
              content := [ { type := "code", title := none, body := scr } ] } ]
          addons :=
            if sugg.2 != "" then
              some [ { type := "link", title := "Create a github issue", body := sugg.2 } ]
            else none })

/-- Hex digits of `n`, zero-padded to four places (as `json.dumps` emits). -/
def hex4 (n : Nat) : String :=
  let ds := Nat.toDigits 16 n
  (List.replicate (4 - ds.length) (Char.ofNat 48) ++ ds).asString

/-- How `json.dumps` (with its default `ensure_ascii=True`) escapes one
character of a string. -/
def jsonEscapeChar (c : Char) : String :=
  if c = Char.ofNat 34 then "\\\""
  else if c = Char.ofNat 92 then "\\\\"
  else if c = Char.ofNat 10 then "\\n"
  else if c = Char.ofNat 13 then "\\r"
  else if c = Char.ofNat 9 then "\\t"
  else if c = Char.ofNat 8 then "\\b"
  else if c = Char.ofNat 12 then "\\f"
  else if 32 ≤ c.toNat ∧ c.toNat ≤ 126 then String.singleton c
  else if c.toNat < 65536 then "\\u" ++ hex4 c.toNat
  else
    "\\u" ++ hex4 (55296 + (c.toNat - 65536) / 1024) ++
    "\\u" ++ hex4 (56320 + (c.toNat - 65536) % 1024)

/-- Encoding of a Python `str` value by `json.dumps`. -/
def jsonDumpsString (s : String) : String :=
  "\"" ++ String.join (s.data.map jsonEscapeChar) ++ "\""

/-- An HTTP response as handed to `http_util.Respond`. -/
structure HResponse where
  body : String
  content_type : String
deriving DecidableEq, Repr

/-- Handler `LitePlugin.script`: generate the script and return it JSON-encoded; no
directory creation, no execution. -/
def script (b : LiteBackend) (logdir : String) (req : Request) :
    List Effect × Except PyError HResponse :=
  let tflite_file := tflite_output_file logdir
  match generate_script b logdir req tflite_file with
  | Except.error e => ([], Except.error e)
  | Except.ok scr =>
    ([], Except.ok { body := jsonDumpsString scr, content_type := "application/json" })

/-- Constant `plugin_event_accumulator.GRAPH`. -/
def GRAPH : String := "graph"

/-- The metadata dict of one run, as returned by `multiplexer.Runs()`. -/
abbrev RunData : Type := List (String × JValue)

/-- The run-data provider: name-to-metadata mapping of the recorded runs. -/
abbrev Multiplexer : Type := List (String × RunData)

/-- Python `data.get(k)`: the value, or `None` when the key is absent. -/
def dictGet (d : List (String × JValue)) (k : String) : JValue :=
  match d.lookup k with
  | some v => v
  | none => JValue.null

/-- Predicate `LitePlugin.is_active`: false when the backend is unsupported or no
multiplexer is configured; otherwise `any(run_names)` over the names of runs
whose metadata has a truthy `GRAPH` entry (`any` of strings is Python
truthiness, i.e. non-emptiness, of the names). -/
def is_active (is_supported : Bool) (multiplexer : Option Multiplexer) : Bool :=
  if !is_supported then false
  else
    match multiplexer with
    | none => false
    | some m =>
      let run_names := (m.filter (fun p => (dictGet p.2 GRAPH).truthy)).map Prod.fst
      run_names.any (fun name => name != "")

/-- What each route is wired to, without embedding the handler bodies twice. -/
inductive HandlerTag where
  | list_supported_ops : HandlerTag
  | list_saved_models : HandlerTag
  | convert : HandlerTag
  | script : HandlerTag
  | serve_file : String → HandlerTag
deriving DecidableEq, Repr

/-- Constant `_LITE_DASHBOARD_FOLDER`. -/
def LITE_DASHBOARD_FOLDER : String := "lite_dashboard"

/-- Method `LitePlugin.get_plugin_apps`: the route table. -/
def get_plugin_apps : List (String × HandlerTag) :=
  [ ("/list_supported_ops", HandlerTag.list_supported_ops),
    ("/list_saved_models", HandlerTag.list_saved_models),
    ("/convert", HandlerTag.convert),
    ("/script", HandlerTag.script),
    ("/index.html", HandlerTag.serve_file (osPathJoin LITE_DASHBOARD_FOLDER "index.html")),
    ("/index.js", HandlerTag.serve_file (osPathJoin LITE_DASHBOARD_FOLDER "index.js")) ]

/-- The six route paths, in table order. -/
def routePaths : List String :=
  [ "/list_supported_ops", "/list_saved_models", "/convert", "/script",
    "/index.html", "/index.js" ]

/-! Concrete stubs used by the witnesses below. -/

/-- A well-formed parsed `data` object. -/
def sampleOptions : JValue :=
  JValue.obj
    [ ("saved_model", JValue.str "m"),
      ("input_arrays", JValue.arr [JValue.str "x"]),
      ("output_arrays", JValue.arr [JValue.str "y"]) ]

/-- Decode bytes by mapping each byte to the character of its code point. -/
def bytesToString (bs : List Nat) : String :=
  (bs.map (fun n => Char.ofNat n)).asString

/-- A stub backend whose execution always succeeds with stdout bytes `"hi"`. -/
def okBackend : LiteBackend :=
  { is_supported := true
    script_from_saved_model := fun dir tf _ _ => dir ++ " -> " ++ tf
    execute := fun _ => (true, [104, 105], [])
    get_suggestion := fun _ => ("", "")
    to_unicode := bytesToString }

/-- A stub backend that fails with stderr `"e"`, a non-empty suggestion and a
non-empty tips link. -/
def failSuggBackend : LiteBackend :=
  { is_supported := true
    script_from_saved_model := fun dir tf _ _ => dir ++ " -> " ++ tf
    execute := fun _ => (false, [], [101])
    get_suggestion := fun _ => ("Try again", "https://example.com/tips")
    to_unicode := bytesToString }

/-- A stub backend that fails with stderr `"e"` and classifies it to an empty
suggestion and an empty tips link. -/
def failPlainBackend : LiteBackend :=
  { is_supported := true
    script_from_saved_model := fun dir tf _ _ => dir ++ " -> " ++ tf
    execute := fun _ => (false, [], [101])
    get_suggestion := fun _ => ("", "")
    to_unicode := bytesToString }

/-- A stub backend whose generated script is just the resolved saved-model
directory, making the resolution observable in the output. -/
def echoBackend : LiteBackend :=
  { is_supported := true
    script_from_saved_model := fun dir _ _ _ => dir
    execute := fun _ => (true, [], [])
    get_suggestion := fun _ => ("", "")
    to_unicode := bytesToString }

/-- An options object whose three fields are all present and falsy
(`saved_model` empty). -/
def falsyOptions : JValue :=
  JValue.obj
    [ ("saved_model", JValue.str ""),
      ("input_arrays", JValue.null),
      ("output_arrays", JValue.null) ]

/-- Options with `saved_model = "m"` and null array fields. -/
def nullArraysOptions : JValue :=
  JValue.obj
    [ ("saved_model", JValue.str "m"),
      ("input_arrays", JValue.null),
      ("output_arrays", JValue.null) ]

/-- Options with `saved_model = "m"` and empty array fields. -/
def emptyArraysOptions : JValue :=
  JValue.obj
    [ ("saved_model", JValue.str "m"),
      ("input_arrays", JValue.arr []),
      ("output_arrays", JValue.arr []) ]

/-- Options with `saved_model = "m"` and no `input_arrays` key at all. -/
def missingArraysOptions : JValue :=
  JValue.obj
    [ ("saved_model", JValue.str "m"),
      ("output_arrays", JValue.arr []) ]

/-- Options whose three fields are present with non-string falsy values. -/
def weirdFalsyOptions : JValue :=
  JValue.obj
    [ ("saved_model", JValue.bool false),
      ("input_arrays", JValue.num 0),
      ("output_arrays", JValue.null) ]

/-! Helper lemmas. -/

/-- Bind of a successful `Except` computation. -/
theorem exceptBind_ok {ε α β : Type} (a : α) (f : α → Except ε β) :
    (Except.ok a >>= f : Except ε β) = f a := rfl

/-- Bind of a failed `Except` computation. -/
theorem exceptBind_error {ε α β : Type} (e : ε) (f : α → Except ε β) :
    (Except.error e >>= f : Except ε β) = Except.error e := rfl

/-- A lookup in an association list succeeds exactly on its keys. -/
theorem lookup_isSome_iff_mem_keys {β : Type} (l : List (String × β)) (a : String) :
    (l.lookup a).isSome = true ↔ a ∈ l.map Prod.fst := by
  induction l with
  | nil => simp [List.lookup]
  | cons p t ih =>
    obtain ⟨k, v⟩ := p
    by_cases h : a = k
    · subst h
      simp [List.lookup]
    · simp only [List.lookup, List.map_cons, List.mem_cons]
      rw [show (a == k) = false by simpa using h]
      simp [ih, h]

/-! The claims. -/

/-- C1: when the backend executes the generated script with `success=true`,
`/convert` answers `result="success"` with exactly the tabs `summary` (a text
block whose body is the success message around the decoded stdout, then a code
block holding the destination tflite path) and `command` (one code block
holding the script), in that order, and no addons. -/
theorem convert_success_payload (b : LiteBackend) (logdir : String) (req : Request)
    (scr : String) (out err : List Nat)
    (hgen : generate_script b logdir req (tflite_output_file logdir) = Except.ok scr)
    (hexec : b.execute scr = (true, out, err)) :
    (convert b logdir req).snd = Except.ok
      { result := "success"
        tabs := [
          { name := "summary"
            content := [
              { type := "text", title := none,
                body := successMessage (b.to_unicode out) },
              { type := "code", title := none, body := tflite_output_file logdir } ] },
          { name := "command"
            content := [ { type := "code", title := none, body := scr } ] } ]
        addons := none } := by
  simp [convert, hgen, hexec]

/-- Witness for C1 at a concrete backend and request. -/
theorem convert_success_payload_witness :
    (convert okBackend "/logs" (some sampleOptions)).snd = Except.ok
      { result := "success"
        tabs := [
          { name := "summary"
            content := [
              { type := "text", title := none,
                body := "Succuss: The model has been converted to tflite file.\nhi" },
              { type := "code", title := none,
                body := "/logs/tflite_output/model.tflite" } ] },
          { name := "command"
            content := [ { type := "code", title := none,
                           body := "/logs/m -> /logs/tflite_output/model.tflite" } ] } ]
        addons := none } :=
  convert_success_payload okBackend "/logs" (some sampleOptions)
    "/logs/m -> /logs/tflite_output/model.tflite" [104, 105] [] rfl rfl

/-- C2: when execution fails and the classifier yields a non-empty suggestion
and a non-empty tips link, `/convert` answers `result="failed"` with an
`error` tab of exactly two blocks (the decoded stderr code block, then the
titled "Suggestion" text block), a trailing `command` tab holding the script,
and exactly one link addon "Create a github issue" pointing at the tips
link. -/
theorem convert_failure_suggestion_payload (b : LiteBackend) (logdir : String)
    (req : Request) (scr : String) (out err : List Nat) (sugg link : String)
    (hgen : generate_script b logdir req (tflite_output_file logdir) = Except.ok scr)
    (hexec : b.execute scr = (false, out, err))
    (hsug : b.get_suggestion err = (sugg, link))
    (hs : sugg ≠ "") (hl : link ≠ "") :
    (convert b logdir req).snd = Except.ok
      { result := "failed"
        tabs := [
          { name := "error"
            content := [
              { type := "code", title := some "error", body := b.to_unicode err },
              { type := "text", title := some "Suggestion", body := sugg } ] },
          { name := "command"
            content := [ { type := "code", title := none, body := scr } ] } ]
        addons := some [ { type := "link", title := "Create a github issue", body := link } ] } := by
  simp [convert, hgen, hexec, hsug, hs, hl]

/-- Witness for C2 at a concrete backend and request. -/
theorem convert_failure_suggestion_payload_witness :
    (convert failSuggBackend "/logs" (some sampleOptions)).snd = Except.ok
      { result := "failed"
        tabs := [
          { name := "error"
            content := [
              { type := "code", title := some "error", body := "e" },
              { type := "text", title := some "Suggestion", body := "Try again" } ] },
          { name := "command"
            content := [ { type := "code", title := none,
                           body := "/logs/m -> /logs/tflite_output/model.tflite" } ] } ]
        addons := some [ { type := "link", title := "Create a github issue",
                           body := "https://example.com/tips" } ] } :=
  convert_failure_suggestion_payload failSuggBackend "/logs" (some sampleOptions)
    "/logs/m -> /logs/tflite_output/model.tflite" [] [101]
    "Try again" "https://example.com/tips" rfl rfl rfl
    (by decide) (by decide)

/-- C3: when execution fails and the classifier yields an empty suggestion and
an empty tips link, the `error` tab has exactly one block (the stderr code
block), the `command` tab is still appended after it, and no addons are
set. -/
theorem convert_failure_plain_payload (b : LiteBackend) (logdir : String)
    (req : Request) (scr : String) (out err : List Nat)
    (hgen : generate_script b logdir req (tflite_output_file logdir) = Except.ok scr)
    (hexec : b.execute scr = (false, out, err))
    (hsug : b.get_suggestion err = ("", "")) :
    (convert b logdir req).snd = Except.ok
      { result := "failed"
        tabs := [
          { name := "error"
            content := [
              { type := "code", title := some "error", body := b.to_unicode err } ] },
          { name := "command"
            content := [ { type := "code", title := none, body := scr } ] } ]
        addons := none } := by
  simp [convert, hgen, hexec, hsug]

/-- Witness for C3 at a concrete backend and request. -/
theorem convert_failure_plain_payload_witness :
    (convert failPlainBackend "/logs" (some sampleOptions)).snd = Except.ok
      { result := "failed"
        tabs := [
          { name := "error"
            content := [
              { type := "code", title := some "error", body := "e" } ] },
          { name := "command"
            content := [ { type := "code", title := none,
                           body := "/logs/m -> /logs/tflite_output/model.tflite" } ] } ]
        addons := none } :=
  convert_failure_plain_payload failPlainBackend "/logs" (some sampleOptions)
    "/logs/m -> /logs/tflite_output/model.tflite" [] [101] rfl rfl rfl

/-- C4 counterexample: with log directory `"/logs"` and an empty `saved_model`
field, resolution yields `"/logs/"` — the log directory with a trailing
separator appended — not exactly `"/logs"`; and with the key absent, script
generation raises `KeyError` instead of resolving to the log directory. -/
theorem saved_model_dir_not_exactly_logdir :
    resolveSavedModelDir "/logs" falsyOptions = Except.ok "/logs/" ∧
    generate_script echoBackend "/logs" (some falsyOptions) (tflite_output_file "/logs") =
      Except.ok "/logs/" ∧
    ("/logs/" : String) ≠ "/logs" ∧
    resolveSavedModelDir "/logs" (JValue.obj []) =
      Except.error (PyError.keyError "saved_model") :=
  ⟨rfl, rfl, by decide, rfl⟩

/-- C4 amended: for every parsed options object whose `saved_model` field is
present with a falsy value, `saved_model_dir` resolves to
`os.path.join(logdir, "")` — the configured log directory itself when that
string is empty or already ends in the separator, and otherwise the log
directory with a trailing `"/"` appended (the same directory, but not the
identical string); an options object lacking the key raises `KeyError`
instead. -/
theorem saved_model_falsy_resolution (logdir : String) (options sv : JValue)
    (hsm : subscript options "saved_model" = Except.ok sv)
    (hf : sv.truthy = false) :
    resolveSavedModelDir logdir options = Except.ok (osPathJoin logdir "") ∧
    osPathJoin logdir "" =
      (if logdir = "" ∨ logdir.data.getLast? = some '/' then logdir
       else logdir ++ "/") := by
  constructor
  · simp [resolveSavedModelDir, hsm, exceptBind_ok, pyOr, hf]
  · by_cases h : logdir = "" ∨ logdir.data.getLast? = some '/'
    · simp [osPathJoin, h]
    · simp [osPathJoin, h]

/-- Witness for the amended C4 at a concrete log directory and options. -/
theorem saved_model_falsy_resolution_witness :
    resolveSavedModelDir "/logs" falsyOptions = Except.ok (osPathJoin "/logs" "") ∧
    osPathJoin "/logs" "" =
      (if ("/logs" : String) = "" ∨ "/logs".data.getLast? = some '/' then "/logs"
       else "/logs" ++ "/") :=
  saved_model_falsy_resolution "/logs" falsyOptions (JValue.str "") rfl rfl

/-- C5 counterexample: an options object missing the `input_arrays` key makes
script generation (and hence `/script`) raise `KeyError`, while the same
options with empty arrays succeed — the behaviors are not identical. -/
theorem missing_arrays_not_like_empty :
    generate_script okBackend "/logs" (some missingArraysOptions)
      (tflite_output_file "/logs") =
      Except.error (PyError.keyError "input_arrays") ∧
    generate_script okBackend "/logs" (some emptyArraysOptions)
      (tflite_output_file "/logs") =
      Except.ok "/logs/m -> /logs/tflite_output/model.tflite" ∧
    (script okBackend "/logs" (some missingArraysOptions)).snd =
      Except.error (PyError.keyError "input_arrays") ∧
    (Except.error (PyError.keyError "input_arrays") : Except PyError String) ≠
      Except.ok "/logs/m -> /logs/tflite_output/model.tflite" :=
  ⟨rfl, rfl, rfl, by simp⟩

/-- C5 amended: for every options object in which `input_arrays` and
`output_arrays` are present but null, `/script` and `/convert` behave
identically to the same options with those fields set to empty arrays (same
generated script, same effects, same response); when a key is absent the
handlers instead raise `KeyError`. -/
theorem null_arrays_like_empty (b : LiteBackend) (logdir : String) (o1 o2 : JValue)
    (hsm : subscript o1 "saved_model" = subscript o2 "saved_model")
    (h1 : subscript o1 "input_arrays" = Except.ok JValue.null)
    (h2 : subscript o2 "input_arrays" = Except.ok (JValue.arr []))
    (h3 : subscript o1 "output_arrays" = Except.ok JValue.null)
    (h4 : subscript o2 "output_arrays" = Except.ok (JValue.arr [])) :
    script b logdir (some o1) = script b logdir (some o2) ∧
    convert b logdir (some o1) = convert b logdir (some o2) := by
  have hg : generate_script b logdir (some o1) (tflite_output_file logdir) =
      generate_script b logdir (some o2) (tflite_output_file logdir) := by
    simp [generate_script, resolveSavedModelDir, exceptBind_ok, hsm, h1, h2, h3, h4,
      pyOr, JValue.truthy]
  constructor
  · simp only [script]
    rw [hg]
  · simp only [convert]
    rw [hg]

/-- Witness for the amended C5 at a concrete backend and options. -/
theorem null_arrays_like_empty_witness :
    script okBackend "/logs" (some nullArraysOptions) =
      script okBackend "/logs" (some emptyArraysOptions) ∧
    convert okBackend "/logs" (some nullArraysOptions) =
      convert okBackend "/logs" (some emptyArraysOptions) :=
  null_arrays_like_empty okBackend "/logs" nullArraysOptions emptyArraysOptions
    rfl rfl rfl rfl rfl

/-- C6: `is_active` is false whenever the backend reports unsupported,
whatever the run data; and it is true only when the backend is supported, a
run-data provider is configured, and at least one recorded run's metadata has
a truthy graph entry. -/
theorem is_active_only_if (sup : Bool) (mux : Option Multiplexer) :
    (sup = false → is_active sup mux = false) ∧
    (is_active sup mux = true →
      sup = true ∧ ∃ m, mux = some m ∧
        ∃ r, r ∈ m ∧ (dictGet r.2 GRAPH).truthy = true) := by
  constructor
  · intro h
    simp [is_active, h]
  · intro h
    cases sup with
    | false => simp [is_active] at h
    | true =>
      cases mux with
      | none => simp [is_active] at h
      | some m =>
        refine ⟨rfl, m, rfl, ?_⟩
        simp only [is_active, Bool.not_true, Bool.false_eq_true, if_false,
          List.any_eq_true, List.mem_map, List.mem_filter] at h
        obtain ⟨name, ⟨r, ⟨hrm, hrg⟩, _⟩, _⟩ := h
        exact ⟨r, hrm, hrg⟩

/-- Witness for C6: an unsupported backend is inactive even with a graph run. -/
theorem is_active_only_if_witness :
    is_active false (some [("run1", [("graph", JValue.bool true)])]) = false :=
  (is_active_only_if false (some [("run1", [("graph", JValue.bool true)])])).1 rfl

/-- C7: `/script` performs no side effects at all — in particular it never
creates the output directory and never invokes backend execution — and only
returns the generated script JSON-encoded as `application/json`, or
propagates the parse/generation error. -/
theorem script_no_effects (b : LiteBackend) (logdir : String) (req : Request) :
    (script b logdir req).fst = [] ∧
    (∀ s, generate_script b logdir req (tflite_output_file logdir) = Except.ok s →
      (script b logdir req).snd =
        Except.ok { body := jsonDumpsString s, content_type := "application/json" }) ∧
    (∀ e, generate_script b logdir req (tflite_output_file logdir) = Except.error e →
      (script b logdir req).snd = Except.error e) := by
  refine ⟨?_, ?_, ?_⟩
  · cases h : generate_script b logdir req (tflite_output_file logdir) <;>
      simp [script, h]
  · intro s hs
    simp [script, hs]
  · intro e he
    simp [script, he]

/-- Witness for C7 at a concrete backend and request. -/
theorem script_no_effects_witness :
    (script okBackend "/logs" (some sampleOptions)).fst = [] ∧
    (script okBackend "/logs" (some sampleOptions)).snd =
      Except.ok { body := jsonDumpsString "/logs/m -> /logs/tflite_output/model.tflite"
                  content_type := "application/json" } :=
  ⟨(script_no_effects okBackend "/logs" (some sampleOptions)).1,
   (script_no_effects okBackend "/logs" (some sampleOptions)).2.1
     "/logs/m -> /logs/tflite_output/model.tflite" rfl⟩

/-- C8: the route table maps exactly the six paths, in order; the last two are
wired to the static-file handler on the dashboard assets; no other path is
recognized. -/
theorem plugin_routes :
    get_plugin_apps.map Prod.fst = routePaths ∧
    (∀ p : String, (get_plugin_apps.lookup p).isSome = true ↔ p ∈ routePaths) ∧
    get_plugin_apps.lookup "/index.html" =
      some (HandlerTag.serve_file "lite_dashboard/index.html") ∧
    get_plugin_apps.lookup "/index.js" =
      some (HandlerTag.serve_file "lite_dashboard/index.js") := by
  refine ⟨rfl, ?_, by decide, by decide⟩
  intro p
  have h := lookup_isSome_iff_mem_keys get_plugin_apps p
  rw [show get_plugin_apps.map Prod.fst = routePaths from rfl] at h
  exact h

/-- C9: on `/convert`, a failed parse or script generation leaves the world
untouched (empty effect trace: no directory creation, no execution), and any
execution effect in the trace is exactly the second effect, preceded by the
creation of the output directory and carrying the successfully generated
script. -/
theorem convert_effect_order (b : LiteBackend) (logdir : String) (req : Request) :
    (∀ e, generate_script b logdir req (tflite_output_file logdir) = Except.error e →
      (convert b logdir req).fst = []) ∧
    (∀ s, Effect.execute s ∈ (convert b logdir req).fst →
      generate_script b logdir req (tflite_output_file logdir) = Except.ok s ∧
      (convert b logdir req).fst =
        [Effect.mkdirs (tflite_output_dir logdir), Effect.execute s]) := by
  constructor
  · intro e he
    simp [convert, he]
  · intro s hs
    cases hg : generate_script b logdir req (tflite_output_file logdir) with
    | error e =>
      rw [show (convert b logdir req).fst = [] by simp [convert, hg]] at hs
      simp at hs
    | ok scr =>
      have hfst : (convert b logdir req).fst =
          [Effect.mkdirs (tflite_output_dir logdir), Effect.execute scr] := by
        rcases hbe : b.execute scr with ⟨succ, out, err⟩
        cases succ <;> simp [convert, hg, hbe]
      rw [hfst] at hs
      simp at hs
      subst hs
      exact ⟨rfl, hfst⟩

/-- Witness for C9: a malformed request leaves the effect trace empty. -/
theorem convert_effect_order_witness :
    (convert okBackend "/logs" none).fst = [] :=
  (convert_effect_order okBackend "/logs" none).1 PyError.jsonError rfl

/-- C10: when `saved_model`, `input_arrays` and `output_arrays` are present
with any falsy values (null, false, 0, empty string, empty list), script
generation coerces them — the directory becomes `join(logdir, "")` and the
array fields become empty lists — and the request is accepted, not rejected,
even for non-string falsy values. -/
theorem falsy_options_coerced (b : LiteBackend) (logdir : String)
    (options sv iv ov : JValue)
    (hsm : subscript options "saved_model" = Except.ok sv) (hsv : sv.truthy = false)
    (hia : subscript options "input_arrays" = Except.ok iv) (hiv : iv.truthy = false)
    (hoa : subscript options "output_arrays" = Except.ok ov) (hov : ov.truthy = false) :
    generate_script b logdir (some options) (tflite_output_file logdir) =
      Except.ok (b.script_from_saved_model (osPathJoin logdir "")
        (tflite_output_file logdir) (JValue.arr []) (JValue.arr [])) := by
  simp [generate_script, resolveSavedModelDir, exceptBind_ok, hsm, hia, hoa,
    pyOr, hsv, hiv, hov]

/-- Witness for C10 with non-string falsy field values. -/
theorem falsy_options_coerced_witness :
    generate_script okBackend "/logs" (some weirdFalsyOptions)
      (tflite_output_file "/logs") =
      Except.ok (okBackend.script_from_saved_model (osPathJoin "/logs" "")
        (tflite_output_file "/logs") (JValue.arr []) (JValue.arr [])) :=
  falsy_options_coerced okBackend "/logs" weirdFalsyOptions
    (JValue.bool false) (JValue.num 0) JValue.null rfl rfl rfl rfl rfl rfl

end LitePlugin
